import Mathlib

/-!
Shallow embedding of the PPM sum-signal analyser (src/SUMO_Analyse.ino).

The program keeps three pieces of global state:
  unsigned int channel[9];      -- pulse durations for channels 1..8 plus the sync pause
  boolean readyToShow = false;  -- handshake flag between ISR and main loop
  int currentChannel = -1;      -- position inside the frame, -1 means unknown

The interrupt service routine read_ppm is modelled as a function from the
elapsed microsecond value (the value of the local variable pauseDuration
after line 65, a 16-bit unsigned quantity produced from the timer register)
and the current state to an Option of the next state; a None result models an
out-of-bounds array access, which the C program would perform silently.
On the Arduino Uno targeted by the sketch (line 14 of the header comment)
int is 16 bits wide, so the increment of currentChannel on line 80 wraps
from 32767 to -32768; this twos-complement wrap is modelled by wrap16.
The main loop body is modelled as a function producing the emitted serial
text together with the next state; unsigned 16-bit accumulation in the
running total is rendered as arithmetic modulo 65536.
-/

/-- The three global variables of the sketch. -/
structure PpmState where
  channel : Fin 9 → Nat
  readyToShow : Bool
  currentChannel : Int
deriving DecidableEq

/-- Initial values of the globals: a zeroed array, flag false, channel -1. -/
def initState : PpmState :=
  { channel := fun _ => 0, readyToShow := false, currentChannel := -1 }

/-- Write channel[i] = v; None models an out-of-bounds store. -/
def setChan (c : Fin 9 → Nat) (i : Int) (v : Nat) : Option (Fin 9 → Nat) :=
  if h : 0 ≤ i ∧ i < 9 then
    some (Function.update c ⟨i.toNat, by omega⟩ v)
  else
    none

/-- Read channel[i]; None models an out-of-bounds load. -/
def getChan (c : Fin 9 → Nat) (i : Int) : Option Nat :=
  if h : 0 ≤ i ∧ i < 9 then
    some (c ⟨i.toNat, by omega⟩)
  else
    none

/-- Twos-complement wrap to the signed 16-bit range of the int type of the
target: avr-gcc wraps currentChannel++ from 32767 to -32768 on line 80. -/
def wrap16 (x : Int) : Int :=
  (x + 32768) % 65536 - 32768

/-- Lines 68-74 of read_ppm: pauseDuration > 2500, the sync-gap branch. -/
def syncStep (elapsed : Nat) (s : PpmState) : Option PpmState :=
  if s.currentChannel ≠ -1 then
    (setChan s.channel 8 elapsed).map
      (fun c => { channel := c, readyToShow := true, currentChannel := 0 })
  else
    some { s with currentChannel := 0 }

/-- Lines 75-82 of read_ppm: pauseDuration <= 2500, the channel-value branch. -/
def pulseStep (elapsed : Nat) (s : PpmState) : Option PpmState :=
  if s.currentChannel ≠ -1 then
    if s.currentChannel < 8 then
      (setChan s.channel s.currentChannel elapsed).map
        (fun c => { s with channel := c, currentChannel := wrap16 (s.currentChannel + 1) })
    else
      some { s with currentChannel := wrap16 (s.currentChannel + 1) }
  else
    some s

/-- The interrupt service routine read_ppm (lines 60-84), as a transition on
the global state, given the elapsed microseconds since the previous edge. -/
def read_ppm (elapsed : Nat) (s : PpmState) : Option PpmState :=
  if s.readyToShow then
    some s
  else if 2500 < elapsed then
    syncStep elapsed s
  else
    pulseStep elapsed s

/-- Process a sequence of rising edges, given by their elapsed times. -/
def runEdges (edges : List Nat) (s : PpmState) : Option PpmState :=
  edges.foldlM (fun t e => read_ppm e t) s

/-- The per-channel output of lines 33-36: index+1, colon, value, semicolon. -/
def channelText (i : Nat) (v : Nat) : String :=
  toString (i + 1) ++ ": " ++ toString v ++ "; "

/-- One iteration of the printing loop of lines 32-38: append the channel
text and accumulate the unsigned 16-bit running total. -/
def loopIter (c : Fin 9 → Nat) (acc : Option (String × Nat)) (i : Nat) :
    Option (String × Nat) :=
  match acc with
  | none => none
  | some (out, total) =>
    match getChan c i with
    | none => none
    | some v => some (out ++ channelText i v, (total + v) % 65536)

/-- The body of loop() (lines 28-47): read channel[8] into the total, and if
readyToShow print all channels, the pause and the total, then clear the flag
and reset currentChannel.  Returns the emitted text and the next state. -/
def loop_body (s : PpmState) : Option (String × PpmState) :=
  match getChan s.channel 8 with
  | none => none
  | some g =>
    if s.readyToShow then
      match (List.range 8).foldl (loopIter s.channel) (some ("", g % 65536)) with
      | none => none
      | some (out, total) =>
        some (out ++ "Pause: " ++ toString g ++ "; Total = " ++ toString total ++ "\n",
          { s with readyToShow := false, currentChannel := -1 })
    else
      some ("", s)

/-- States reachable from the initial globals by ISR edges and loop passes. -/
inductive Reachable : PpmState → Prop
  | init : Reachable initState
  | edge {s s' : PpmState} {e : Nat} :
      Reachable s → read_ppm e s = some s' → Reachable s'
  | report {s s' : PpmState} {out : String} :
      Reachable s → loop_body s = some (out, s') → Reachable s'

/-! Step lemmas describing every branch of read_ppm and loop_body. -/

lemma setChan_in_bounds (c : Fin 9 → Nat) (v : Nat) (i : Int)
    (h0 : 0 ≤ i) (h9 : i < 9) :
    setChan c i v = some (Function.update c ⟨i.toNat, by omega⟩ v) :=
  dif_pos ⟨h0, h9⟩

lemma setChan_oob (c : Fin 9 → Nat) (v : Nat) (i : Int) (h : i < 0) :
    setChan c i v = none :=
  dif_neg (by omega)

lemma wrap16_eq_self (x : Int) (h1 : -32768 ≤ x) (h2 : x ≤ 32767) :
    wrap16 x = x := by
  unfold wrap16
  omega

lemma wrap16_top : wrap16 32768 = -32768 := by decide

lemma read_ppm_ready_id (s : PpmState) (e : Nat) (hr : s.readyToShow = true) :
    read_ppm e s = some s := by
  simp [read_ppm, hr]

lemma read_ppm_sync_unsync (s : PpmState) (e : Nat) (hr : s.readyToShow = false)
    (he : 2500 < e) (hc : s.currentChannel = -1) :
    read_ppm e s = some { s with currentChannel := 0 } := by
  simp [read_ppm, hr, he, syncStep, hc]

lemma read_ppm_sync_done (s : PpmState) (e : Nat) (hr : s.readyToShow = false)
    (he : 2500 < e) (hc : s.currentChannel ≠ -1) :
    read_ppm e s =
      some { channel := Function.update s.channel 8 e, readyToShow := true,
             currentChannel := 0 } := by
  simp [read_ppm, hr, he, syncStep, hc,
    setChan_in_bounds s.channel e 8 (by norm_num) (by norm_num)]

lemma read_ppm_pulse_unsync (s : PpmState) (e : Nat) (hr : s.readyToShow = false)
    (he : e ≤ 2500) (hc : s.currentChannel = -1) : read_ppm e s = some s := by
  simp [read_ppm, hr, Nat.not_lt.mpr he, pulseStep, hc]

lemma read_ppm_pulse_mid (s : PpmState) (e : Nat) (hr : s.readyToShow = false)
    (he : e ≤ 2500) (h0 : 0 ≤ s.currentChannel) (h8 : s.currentChannel < 8) :
    read_ppm e s =
      some { s with
             channel := Function.update s.channel ⟨s.currentChannel.toNat, by omega⟩ e,
             currentChannel := wrap16 (s.currentChannel + 1) } := by
  have hc : s.currentChannel ≠ -1 := by omega
  simp [read_ppm, hr, Nat.not_lt.mpr he, pulseStep, hc, h8,
    setChan_in_bounds s.channel e s.currentChannel h0 (by omega)]

lemma read_ppm_pulse_over (s : PpmState) (e : Nat) (hr : s.readyToShow = false)
    (he : e ≤ 2500) (h8 : 8 ≤ s.currentChannel) :
    read_ppm e s = some { s with currentChannel := wrap16 (s.currentChannel + 1) } := by
  have hc : s.currentChannel ≠ -1 := by omega
  simp [read_ppm, hr, Nat.not_lt.mpr he, pulseStep, hc, Int.not_lt.mpr h8]

lemma read_ppm_pulse_oob (s : PpmState) (e : Nat) (hr : s.readyToShow = false)
    (he : e ≤ 2500) (hneg : s.currentChannel < 0) (hne : s.currentChannel ≠ -1) :
    read_ppm e s = none := by
  simp [read_ppm, hr, Nat.not_lt.mpr he, pulseStep, hne,
    show s.currentChannel < 8 by omega,
    setChan_oob s.channel e s.currentChannel hneg]

lemma read_ppm_index_inv (s s' : PpmState) (e : Nat)
    (hinv : s.currentChannel = -32768 ∨
      (-1 ≤ s.currentChannel ∧ s.currentChannel ≤ 32767))
    (hstep : read_ppm e s = some s') :
    s'.currentChannel = -32768 ∨
      (-1 ≤ s'.currentChannel ∧ s'.currentChannel ≤ 32767) := by
  by_cases hr : s.readyToShow
  · rw [read_ppm_ready_id s e hr] at hstep
    cases hstep; exact hinv
  · replace hr : s.readyToShow = false := by simpa using hr
    by_cases hg : 2500 < e
    · by_cases hc : s.currentChannel = -1
      · rw [read_ppm_sync_unsync s e hr hg hc] at hstep
        cases hstep; right; norm_num
      · rw [read_ppm_sync_done s e hr hg hc] at hstep
        cases hstep; right; norm_num
    · replace hg : e ≤ 2500 := by omega
      by_cases hc : s.currentChannel = -1
      · rw [read_ppm_pulse_unsync s e hr hg hc] at hstep
        cases hstep; exact hinv
      · rcases hinv with h32 | ⟨hlo, hhi⟩
        · rw [read_ppm_pulse_oob s e hr hg (by omega) hc] at hstep
          cases hstep
        · by_cases h8 : s.currentChannel < 8
          · rw [read_ppm_pulse_mid s e hr hg (by omega) h8] at hstep
            cases hstep
            right
            rw [show ({ s with
                channel := Function.update s.channel
                  ⟨s.currentChannel.toNat, by omega⟩ e,
                currentChannel := wrap16 (s.currentChannel + 1) } :
                  PpmState).currentChannel = wrap16 (s.currentChannel + 1) from rfl,
              wrap16_eq_self (s.currentChannel + 1) (by omega) (by omega)]
            omega
          · rw [read_ppm_pulse_over s e hr hg (by omega)] at hstep
            cases hstep
            rw [show ({ s with currentChannel := wrap16 (s.currentChannel + 1) } :
                PpmState).currentChannel = wrap16 (s.currentChannel + 1) from rfl]
            by_cases htop : s.currentChannel = 32767
            · left
              rw [htop]
              exact wrap16_top
            · right
              rw [wrap16_eq_self (s.currentChannel + 1) (by omega) (by omega)]
              omega

lemma getChan_zero (c : Fin 9 → Nat) : getChan c 0 = some (c 0) := rfl

lemma getChan_one (c : Fin 9 → Nat) : getChan c 1 = some (c 1) := rfl

lemma getChan_two (c : Fin 9 → Nat) : getChan c 2 = some (c 2) := rfl

lemma getChan_three (c : Fin 9 → Nat) : getChan c 3 = some (c 3) := rfl

lemma getChan_four (c : Fin 9 → Nat) : getChan c 4 = some (c 4) := rfl

lemma getChan_five (c : Fin 9 → Nat) : getChan c 5 = some (c 5) := rfl

lemma getChan_six (c : Fin 9 → Nat) : getChan c 6 = some (c 6) := rfl

lemma getChan_seven (c : Fin 9 → Nat) : getChan c 7 = some (c 7) := rfl

lemma getChan_eight (c : Fin 9 → Nat) : getChan c 8 = some (c 8) := rfl

lemma loop_body_not_ready (s : PpmState) (h : s.readyToShow = false) :
    loop_body s = some ("", s) := by
  rw [loop_body, getChan_eight s.channel]
  simp [h]

lemma loop_body_ready (s : PpmState) (h : s.readyToShow = true) :
    loop_body s = some (
      channelText 0 (s.channel 0) ++ channelText 1 (s.channel 1) ++
        channelText 2 (s.channel 2) ++ channelText 3 (s.channel 3) ++
        channelText 4 (s.channel 4) ++ channelText 5 (s.channel 5) ++
        channelText 6 (s.channel 6) ++ channelText 7 (s.channel 7) ++ "Pause: " ++
        toString (s.channel 8) ++ "; Total = " ++
        toString ((s.channel 8 + s.channel 0 + s.channel 1 + s.channel 2 + s.channel 3 +
          s.channel 4 + s.channel 5 + s.channel 6 + s.channel 7) % 65536) ++ "\n",
      { s with readyToShow := false, currentChannel := -1 }) := by
  rw [loop_body, getChan_eight s.channel]
  rw [show List.range 8 = [0, 1, 2, 3, 4, 5, 6, 7] from rfl]
  simp only [List.foldl, loopIter, h, if_true]
  simp [getChan_zero, getChan_one, getChan_two, getChan_three, getChan_four,
    getChan_five, getChan_six, getChan_seven, String.empty_append,
    String.append_assoc, Nat.mod_add_mod]

/-- Claim C2: if the Ready Flag is set, a rising edge with any elapsed value
leaves the whole state (buffer, flag, channel index) unchanged. -/
theorem ready_edge_dropped (s : PpmState) (e : Nat)
    (h : s.readyToShow = true) : read_ppm e s = some s := by
  simp [read_ppm, h]

theorem ready_edge_dropped_witness :
    initState.readyToShow = false ∧
      read_ppm 1500 { initState with readyToShow := true } =
        some { initState with readyToShow := true } :=
  ⟨rfl, ready_edge_dropped { initState with readyToShow := true } 1500 rfl⟩

/-- Claim C5: with the Ready Flag clear, an elapsed value of exactly 2500 is
handled by the channel-pulse branch; the sync-gap branch runs only for
elapsed strictly greater than 2500, and the pulse branch otherwise. -/
theorem boundary_2500_is_pulse (s : PpmState) (h : s.readyToShow = false) :
    read_ppm 2500 s = pulseStep 2500 s ∧
      (∀ e : Nat, 2500 < e → read_ppm e s = syncStep e s) ∧
      (∀ e : Nat, e ≤ 2500 → read_ppm e s = pulseStep e s) := by
  refine ⟨?_, fun e he => ?_, fun e he => ?_⟩
  · simp [read_ppm, h]
  · simp [read_ppm, h, he]
  · simp [read_ppm, h, Nat.not_lt.mpr he]

theorem boundary_2500_is_pulse_witness :
    initState.readyToShow = false ∧ read_ppm 2500 initState = pulseStep 2500 initState :=
  ⟨rfl, (boundary_2500_is_pulse initState rfl).1⟩

/-- Claim C6: an edge with elapsed > 2500 while unsynchronized (channel index
-1, flag clear) only moves the index to 0: flag stays clear, buffer intact. -/
theorem first_sync_only_synchronizes (s : PpmState) (e : Nat)
    (hr : s.readyToShow = false) (hc : s.currentChannel = -1) (he : 2500 < e) :
    read_ppm e s = some { s with currentChannel := 0 } := by
  simp [read_ppm, hr, he, syncStep, hc]

theorem first_sync_only_synchronizes_witness :
    read_ppm 3000 initState = some { initState with currentChannel := 0 } :=
  first_sync_only_synchronizes initState 3000 rfl rfl (by norm_num)

/-- Claim C4 counterexample: in state InFrame(8) with the flag clear, a pulse
edge moves the Current Channel Index to 9, so the state does not remain
InFrame(8) as claimed (line 80 increments currentChannel unconditionally). -/
theorem ninth_pulse_index_cex :
    Option.map PpmState.currentChannel
        (read_ppm 1500
          { channel := fun _ => 0, readyToShow := false, currentChannel := 8 }) =
      some 9 ∧ (9 : Int) ≠ 8 := by
  constructor
  · rfl
  · norm_num

/-- Claim C4 (amended): in state InFrame(8) with the Ready Flag clear, an
edge with elapsed at most 2500 leaves the Channel Buffer and the flag
unchanged, but the Current Channel Index is incremented to 9 instead of
staying at 8. -/
theorem ninth_pulse_buffer_unchanged (s : PpmState) (e : Nat)
    (hr : s.readyToShow = false) (hc : s.currentChannel = 8) (he : e ≤ 2500) :
    read_ppm e s = some { s with currentChannel := 9 } := by
  simpa [hc, show wrap16 9 = 9 from by decide]
    using read_ppm_pulse_over s e hr he (by omega)

theorem ninth_pulse_buffer_unchanged_witness :
    read_ppm 1500 { channel := fun _ => 0, readyToShow := false, currentChannel := 8 } =
      some { channel := fun _ => 0, readyToShow := false, currentChannel := 9 } :=
  ninth_pulse_buffer_unchanged
    { channel := fun _ => 0, readyToShow := false, currentChannel := 8 } 1500
    rfl rfl (by norm_num)

lemma loop_body_index_inv (s s' : PpmState) (out : String)
    (hinv : s.currentChannel = -32768 ∨
      (-1 ≤ s.currentChannel ∧ s.currentChannel ≤ 32767))
    (hstep : loop_body s = some (out, s')) :
    s'.currentChannel = -32768 ∨
      (-1 ≤ s'.currentChannel ∧ s'.currentChannel ≤ 32767) := by
  by_cases h : s.readyToShow
  · rw [loop_body_ready s h] at hstep
    cases hstep
    right; norm_num
  · replace h : s.readyToShow = false := by simpa using h
    rw [loop_body_not_ready s h] at hstep
    cases hstep
    exact hinv

lemma reachable_index_range {s : PpmState} (h : Reachable s) :
    s.currentChannel = -32768 ∨
      (-1 ≤ s.currentChannel ∧ s.currentChannel ≤ 32767) := by
  induction h with
  | init => right; norm_num [initState]
  | edge hs hstep ih => exact read_ppm_index_inv _ _ _ ih hstep
  | report hs hstep ih => exact loop_body_index_inv _ _ _ ih hstep

/-- Claim C3 counterexample: one sync edge followed by nine pulse edges is a
run of decoder steps from the initial state after which the Current Channel
Index is 9, outside the claimed set of values -1..8. -/
theorem channel_index_escapes_cex :
    Option.map PpmState.currentChannel
        (runEdges [3000, 1500, 1500, 1500, 1500, 1500, 1500, 1500, 1500, 1500]
          initState) =
      some 9 ∧ (9 : Int) ∉ ([-1, 0, 1, 2, 3, 4, 5, 6, 7, 8] : List Int) := by
  constructor
  · rfl
  · decide

/-- Claim C3 (amended): starting from the initial state, every sequence of
decoder edge steps and reporter steps keeps the Current Channel Index in the
signed 16-bit range, and in every reachable state the index is either at
least -1 (and at most 32767) or exactly -32768; it is not confined to -1..8,
since every pulse edge in a synchronized state increments it, past 8 and,
after 32767, wrapping to -32768. -/
theorem channel_index_range (s : PpmState) (h : Reachable s) :
    s.currentChannel = -32768 ∨
      (-1 ≤ s.currentChannel ∧ s.currentChannel ≤ 32767) :=
  reachable_index_range h

theorem channel_index_range_witness :
    initState.currentChannel = -32768 ∨
      (-1 ≤ initState.currentChannel ∧ initState.currentChannel ≤ 32767) :=
  channel_index_range initState Reachable.init

/-- Claim C9: a reporter pass entered with the Ready Flag set emits one
report, clears the flag, resets the Current Channel Index to -1, and leaves
all nine Channel Buffer entries untouched. -/
theorem report_releases_buffer (s : PpmState) (h : s.readyToShow = true) :
    ∃ out : String,
      loop_body s =
        some (out, { s with readyToShow := false, currentChannel := -1 }) :=
  ⟨_, loop_body_ready s h⟩

theorem report_releases_buffer_witness :
    ∃ out : String,
      loop_body { channel := fun _ => 0, readyToShow := true, currentChannel := 0 } =
        some (out,
          { channel := fun _ => 0, readyToShow := false, currentChannel := -1 }) :=
  report_releases_buffer
    { channel := fun _ => 0, readyToShow := true, currentChannel := 0 } rfl

/-- Claim C8: with the Ready Flag set, the reporter emits the eight channel
entries in order, each as index+1, a colon, the value and a semicolon, then
the sync-gap entry, then a total equal to the arithmetic sum of all nine
Channel Buffer entries reduced modulo 2^16. -/
theorem report_line_format (s : PpmState) (h : s.readyToShow = true) :
    ∃ s' : PpmState,
      loop_body s = some (
        channelText 0 (s.channel 0) ++ channelText 1 (s.channel 1) ++
          channelText 2 (s.channel 2) ++ channelText 3 (s.channel 3) ++
          channelText 4 (s.channel 4) ++ channelText 5 (s.channel 5) ++
          channelText 6 (s.channel 6) ++ channelText 7 (s.channel 7) ++ "Pause: " ++
          toString (s.channel 8) ++ "; Total = " ++
          toString ((s.channel 0 + s.channel 1 + s.channel 2 + s.channel 3 +
            s.channel 4 + s.channel 5 + s.channel 6 + s.channel 7 + s.channel 8) %
            65536) ++ "\n", s') := by
  refine ⟨{ s with readyToShow := false, currentChannel := -1 }, ?_⟩
  rw [loop_body_ready s h]
  have harg : s.channel 8 + s.channel 0 + s.channel 1 + s.channel 2 + s.channel 3 +
      s.channel 4 + s.channel 5 + s.channel 6 + s.channel 7 =
      s.channel 0 + s.channel 1 + s.channel 2 + s.channel 3 + s.channel 4 +
        s.channel 5 + s.channel 6 + s.channel 7 + s.channel 8 := by ring
  rw [harg]

theorem report_line_format_witness :
    ∃ s' : PpmState,
      loop_body { channel := fun _ => 1500, readyToShow := true, currentChannel := 0 } =
        some (
          channelText 0 1500 ++ channelText 1 1500 ++ channelText 2 1500 ++
            channelText 3 1500 ++ channelText 4 1500 ++ channelText 5 1500 ++
            channelText 6 1500 ++ channelText 7 1500 ++ "Pause: " ++
            toString 1500 ++ "; Total = " ++
            toString ((1500 + 1500 + 1500 + 1500 + 1500 + 1500 + 1500 + 1500 + 1500) %
              65536) ++ "\n", s') :=
  report_line_format
    { channel := fun _ => 1500, readyToShow := true, currentChannel := 0 } rfl

/-- Claim C7: from the initial unsynchronized state, the edge sequence 3000,
then eight pulses of 1500, then 3000 leaves the flag set with entries 0..7
equal to 1500, entry 8 equal to 3000 and entry sum 15000, while the flag is
still clear after every proper prefix of the sequence; in particular it is
not set after the first sync edge and is set exactly once, by the tenth. -/
theorem end_to_end_scenario :
    Option.map
        (fun s => (s.readyToShow, s.currentChannel, s.channel 0, s.channel 1,
          s.channel 2, s.channel 3, s.channel 4, s.channel 5, s.channel 6,
          s.channel 7, s.channel 8))
        (runEdges [3000, 1500, 1500, 1500, 1500, 1500, 1500, 1500, 1500, 3000]
          initState) =
      some (true, 0, 1500, 1500, 1500, 1500, 1500, 1500, 1500, 1500, 3000) ∧
    ((List.range 10).all fun k =>
      Option.map PpmState.readyToShow
          (runEdges
            (List.take k [3000, 1500, 1500, 1500, 1500, 1500, 1500, 1500, 1500, 3000])
            initState) ==
        some false) = true ∧
    Option.map
        (fun s => s.channel 0 + s.channel 1 + s.channel 2 + s.channel 3 +
          s.channel 4 + s.channel 5 + s.channel 6 + s.channel 7 + s.channel 8)
        (runEdges [3000, 1500, 1500, 1500, 1500, 1500, 1500, 1500, 1500, 3000]
          initState) =
      some 15000 := by
  refine ⟨rfl, by decide, rfl⟩

lemma runEdges_nil (s : PpmState) : runEdges [] s = some s := rfl

lemma runEdges_cons (e : Nat) (es : List Nat) (s : PpmState) :
    runEdges (e :: es) s = (read_ppm e s).bind fun t => runEdges es t := rfl

/-- Claim C1: from any state InFrame(0) with the Ready Flag clear, eight
pulse edges with durations between 1000 and 2000 followed by one gap edge
above 2500 leave the flag set, with Channel Buffer entries 0..7 equal to the
eight pulse durations in order and entry 8 equal to the gap duration; the
flag is still clear after every proper prefix of the sequence, so it is
asserted exactly once, by the final gap edge. -/
theorem well_formed_frame_decoded (c : Fin 9 → Nat)
    (p0 p1 p2 p3 p4 p5 p6 p7 g : Nat)
    (h0 : 1000 ≤ p0 ∧ p0 ≤ 2000) (h1 : 1000 ≤ p1 ∧ p1 ≤ 2000)
    (h2 : 1000 ≤ p2 ∧ p2 ≤ 2000) (h3 : 1000 ≤ p3 ∧ p3 ≤ 2000)
    (h4 : 1000 ≤ p4 ∧ p4 ≤ 2000) (h5 : 1000 ≤ p5 ∧ p5 ≤ 2000)
    (h6 : 1000 ≤ p6 ∧ p6 ≤ 2000) (h7 : 1000 ≤ p7 ∧ p7 ≤ 2000)
    (hg : 2500 < g) :
    ∃ s' : PpmState,
      runEdges [p0, p1, p2, p3, p4, p5, p6, p7, g]
          { channel := c, readyToShow := false, currentChannel := 0 } = some s' ∧
      s'.readyToShow = true ∧
      s'.channel 0 = p0 ∧ s'.channel 1 = p1 ∧ s'.channel 2 = p2 ∧
      s'.channel 3 = p3 ∧ s'.channel 4 = p4 ∧ s'.channel 5 = p5 ∧
      s'.channel 6 = p6 ∧ s'.channel 7 = p7 ∧ s'.channel 8 = g ∧
      (∀ k : Nat, k ≤ 8 →
        Option.map PpmState.readyToShow
            (runEdges (List.take k [p0, p1, p2, p3, p4, p5, p6, p7, g])
              { channel := c, readyToShow := false, currentChannel := 0 }) =
          some false) := by
  have q0 : p0 ≤ 2500 := by omega
  have q1 : p1 ≤ 2500 := by omega
  have q2 : p2 ≤ 2500 := by omega
  have q3 : p3 ≤ 2500 := by omega
  have q4 : p4 ≤ 2500 := by omega
  have q5 : p5 ≤ 2500 := by omega
  have q6 : p6 ≤ 2500 := by omega
  have q7 : p7 ≤ 2500 := by omega
  have e0 : read_ppm p0 { channel := c, readyToShow := false, currentChannel := 0 } =
      some { channel := Function.update c 0 p0, readyToShow := false,
             currentChannel := 1 } :=
    read_ppm_pulse_mid _ _ rfl q0 (by norm_num) (by norm_num)
  have e1 : read_ppm p1
      { channel := Function.update c 0 p0, readyToShow := false,
        currentChannel := 1 } =
      some { channel := Function.update (Function.update c 0 p0) 1 p1,
             readyToShow := false, currentChannel := 2 } :=
    read_ppm_pulse_mid _ _ rfl q1 (by norm_num) (by norm_num)
  have e2 : read_ppm p2
      { channel := Function.update (Function.update c 0 p0) 1 p1,
        readyToShow := false, currentChannel := 2 } =
      some { channel :=
               Function.update (Function.update (Function.update c 0 p0) 1 p1) 2 p2,
             readyToShow := false, currentChannel := 3 } :=
    read_ppm_pulse_mid _ _ rfl q2 (by norm_num) (by norm_num)
  have e3 : read_ppm p3
      { channel :=
          Function.update (Function.update (Function.update c 0 p0) 1 p1) 2 p2,
        readyToShow := false, currentChannel := 3 } =
      some { channel :=
               Function.update
                 (Function.update (Function.update (Function.update c 0 p0) 1 p1) 2 p2)
                 3 p3,
             readyToShow := false, currentChannel := 4 } :=
    read_ppm_pulse_mid _ _ rfl q3 (by norm_num) (by norm_num)
  have e4 : read_ppm p4
      { channel :=
          Function.update
            (Function.update (Function.update (Function.update c 0 p0) 1 p1) 2 p2)
            3 p3,
        readyToShow := false, currentChannel := 4 } =
      some { channel :=
               Function.update
                 (Function.update
                   (Function.update (Function.update (Function.update c 0 p0) 1 p1)
                     2 p2)
                   3 p3)
                 4 p4,
             readyToShow := false, currentChannel := 5 } :=
    read_ppm_pulse_mid _ _ rfl q4 (by norm_num) (by norm_num)
  have e5 : read_ppm p5
      { channel :=
          Function.update
            (Function.update
              (Function.update (Function.update (Function.update c 0 p0) 1 p1) 2 p2)
              3 p3)
            4 p4,
        readyToShow := false, currentChannel := 5 } =
      some { channel :=
               Function.update
                 (Function.update
                   (Function.update
                     (Function.update
                       (Function.update (Function.update c 0 p0) 1 p1) 2 p2)
                     3 p3)
                   4 p4)
                 5 p5,
             readyToShow := false, currentChannel := 6 } :=
    read_ppm_pulse_mid _ _ rfl q5 (by norm_num) (by norm_num)
  have e6 : read_ppm p6
      { channel :=
          Function.update
            (Function.update
              (Function.update
                (Function.update (Function.update (Function.update c 0 p0) 1 p1) 2 p2)
                3 p3)
              4 p4)
            5 p5,
        readyToShow := false, currentChannel := 6 } =
      some { channel :=
               Function.update
                 (Function.update
                   (Function.update
                     (Function.update
                       (Function.update
                         (Function.update (Function.update c 0 p0) 1 p1) 2 p2)
                       3 p3)
                     4 p4)
                   5 p5)
                 6 p6,
             readyToShow := false, currentChannel := 7 } :=
    read_ppm_pulse_mid _ _ rfl q6 (by norm_num) (by norm_num)
  have e7 : read_ppm p7
      { channel :=
          Function.update
            (Function.update
              (Function.update
                (Function.update
                  (Function.update (Function.update (Function.update c 0 p0) 1 p1)
                    2 p2)
                  3 p3)
                4 p4)
              5 p5)
            6 p6,
        readyToShow := false, currentChannel := 7 } =
      some { channel :=
               Function.update
                 (Function.update
                   (Function.update
                     (Function.update
                       (Function.update
                         (Function.update
                           (Function.update (Function.update c 0 p0) 1 p1) 2 p2)
                         3 p3)
                       4 p4)
                     5 p5)
                   6 p6)
                 7 p7,
             readyToShow := false, currentChannel := 8 } :=
    read_ppm_pulse_mid _ _ rfl q7 (by norm_num) (by norm_num)
  have e8 : read_ppm g
      { channel :=
          Function.update
            (Function.update
              (Function.update
                (Function.update
                  (Function.update
                    (Function.update
                      (Function.update (Function.update c 0 p0) 1 p1) 2 p2)
                    3 p3)
                  4 p4)
                5 p5)
              6 p6)
            7 p7,
        readyToShow := false, currentChannel := 8 } =
      some { channel :=
               Function.update
                 (Function.update
                   (Function.update
                     (Function.update
                       (Function.update
                         (Function.update
                           (Function.update
                             (Function.update (Function.update c 0 p0) 1 p1) 2 p2)
                           3 p3)
                         4 p4)
                       5 p5)
                     6 p6)
                   7 p7)
                 8 g,
             readyToShow := true, currentChannel := 0 } :=
    read_ppm_sync_done _ _ rfl hg (by norm_num)
  have hrun : runEdges [p0, p1, p2, p3, p4, p5, p6, p7, g]
      { channel := c, readyToShow := false, currentChannel := 0 } =
      some { channel :=
               Function.update
                 (Function.update
                   (Function.update
                     (Function.update
                       (Function.update
                         (Function.update
                           (Function.update
                             (Function.update (Function.update c 0 p0) 1 p1) 2 p2)
                           3 p3)
                         4 p4)
                       5 p5)
                     6 p6)
                   7 p7)
                 8 g,
             readyToShow := true, currentChannel := 0 } := by
    simp only [runEdges_cons, e0, Option.some_bind, e1, e2, e3, e4, e5, e6, e7, e8,
      runEdges_nil]
  refine ⟨_, hrun, rfl, by simp, by simp, by simp, by simp, by simp, by simp,
    by simp, by simp, by simp, ?_⟩
  intro k hk
  interval_cases k <;>
    simp [runEdges_cons, runEdges_nil, e0, e1, e2, e3, e4, e5, e6, e7]

theorem well_formed_frame_decoded_witness :
    ∃ s' : PpmState,
      runEdges [1000, 1100, 1200, 1300, 1400, 1500, 1600, 1700, 3000]
          { channel := fun _ => 0, readyToShow := false, currentChannel := 0 } =
        some s' ∧
      s'.readyToShow = true ∧
      s'.channel 0 = 1000 ∧ s'.channel 1 = 1100 ∧ s'.channel 2 = 1200 ∧
      s'.channel 3 = 1300 ∧ s'.channel 4 = 1400 ∧ s'.channel 5 = 1500 ∧
      s'.channel 6 = 1600 ∧ s'.channel 7 = 1700 ∧ s'.channel 8 = 3000 ∧
      (∀ k : Nat, k ≤ 8 →
        Option.map PpmState.readyToShow
            (runEdges
              (List.take k [1000, 1100, 1200, 1300, 1400, 1500, 1600, 1700, 3000])
              { channel := fun _ => 0, readyToShow := false, currentChannel := 0 }) =
          some false) :=
  well_formed_frame_decoded (fun _ => 0) 1000 1100 1200 1300 1400 1500 1600 1700 3000
    (by decide) (by decide) (by decide) (by decide) (by decide) (by decide)
    (by decide) (by decide) (by decide)

lemma runEdges_append (l1 l2 : List Nat) (s : PpmState) :
    runEdges (l1 ++ l2) s = (runEdges l1 s).bind fun t => runEdges l2 t := by
  simp [runEdges, List.foldlM_append]

lemma runEdges_pulses_advance (e : Nat) (he : e ≤ 2500) :
    ∀ (n : Nat) (c0 : Fin 9 → Nat) (i : Int), 0 ≤ i → i + n ≤ 32767 →
      ∃ c : Fin 9 → Nat,
        runEdges (List.replicate n e)
            { channel := c0, readyToShow := false, currentChannel := i } =
          some { channel := c, readyToShow := false, currentChannel := i + n } := by
  intro n
  induction n with
  | zero =>
    intro c0 i h0 hn
    exact ⟨c0, by simp [runEdges_nil]⟩
  | succ n ih =>
    intro c0 i h0 hn
    rw [List.replicate_succ, runEdges_cons]
    by_cases h8 : i < 8
    · rw [read_ppm_pulse_mid _ _ rfl he h0 h8, Option.some_bind]
      simp only [wrap16_eq_self (i + 1) (by omega) (by omega)]
      obtain ⟨c, hc⟩ := ih (Function.update c0 ⟨i.toNat, by omega⟩ e) (i + 1)
        (by omega) (by omega)
      refine ⟨c, ?_⟩
      rw [hc]
      simp only [Option.some.injEq, PpmState.mk.injEq, true_and]
      push_cast
      ring
    · have h8' : 8 ≤ i := by omega
      rw [read_ppm_pulse_over _ _ rfl he h8', Option.some_bind]
      simp only [wrap16_eq_self (i + 1) (by omega) (by omega)]
      obtain ⟨c, hc⟩ := ih c0 (i + 1) (by omega) (by omega)
      refine ⟨c, ?_⟩
      rw [hc]
      simp only [Option.some.injEq, PpmState.mk.injEq, true_and]
      push_cast
      ring

/-- Claim C10: the claimed bound fails on the code because currentChannel is
a 16-bit int: from the initial state, one sync edge followed by 32769 pulse
edges increments the channel index past 32767, wrapping it to -32768, and
the last pulse edge then writes channel[currentChannel] out of bounds (an
out-of-bounds access is modelled as the result none). -/
theorem overflow_oob_write :
    runEdges (3000 :: List.replicate 32769 1500) initState = none := by
  have h1 : read_ppm 3000 initState =
      some { channel := fun _ => 0, readyToShow := false, currentChannel := 0 } :=
    read_ppm_sync_unsync initState 3000 rfl (by norm_num) rfl
  obtain ⟨c, hc⟩ :=
    runEdges_pulses_advance 1500 (by norm_num) 32767 (fun _ => 0) 0
      (by norm_num) (by norm_num)
  have hc' : runEdges (List.replicate 32767 1500)
      { channel := fun _ => (0 : Nat), readyToShow := false, currentChannel := 0 } =
      some { channel := c, readyToShow := false, currentChannel := 32767 } := by
    rw [hc]
    norm_num
  have h2 : read_ppm 1500
      { channel := c, readyToShow := false, currentChannel := 32767 } =
      some { channel := c, readyToShow := false, currentChannel := -32768 } := by
    rw [read_ppm_pulse_over _ _ rfl (by norm_num) (by norm_num)]
    norm_num [wrap16]
  have h3 : read_ppm 1500
      { channel := c, readyToShow := false, currentChannel := -32768 } = none :=
    read_ppm_pulse_oob _ _ rfl (by norm_num) (by norm_num) (by norm_num)
  have hsplit : (3000 :: List.replicate 32769 (1500 : Nat)) =
      3000 :: (List.replicate 32767 1500 ++ [1500, 1500]) := by
    rw [show (32769 : Nat) = 32767 + 2 from rfl, List.replicate_add]
    rfl
  rw [hsplit, runEdges_cons, h1, Option.some_bind, runEdges_append, hc',
    Option.some_bind, runEdges_cons, h2, Option.some_bind, runEdges_cons, h3]
  rfl
